import Mathlib

/-!
Verification development for the AutoSrtSyncGUI subtitle synchronizer.

The Python sources are shallowly embedded:
* strings are `List Char`; Python `str.lower`/regex stripping/`str.count`/
  `str.split`/`str.index` are modelled character-exactly for ASCII input;
* Python floats are idealized as exact rationals `ℚ`; `round` is modelled as
  round-half-to-even (`pyRound`), which is Python 3 semantics;
* `datetime.timedelta` values are modelled as their exact total number of
  microseconds (an `ℤ`), which is the representation CPython uses;
* fallible operations (float division by zero, file decoding) return
  `Option`/sum results instead of raising;
* the external speech-recognition and audio-extraction capabilities, and the
  `difflib.SequenceMatcher.find_longest_match` library call, are oracles
  passed in as function parameters, so every theorem quantifies over all of
  their behaviours.
-/

namespace AutoSrtSync

/-! ## Python string primitives (on `List Char`) -/

/-- Python whitespace characters (the ones `str.strip`/`str.split` use for
ASCII text). -/
def isPyWs (c : Char) : Bool :=
  c = ' ' || c = '\t' || c = '\n' || c = '\x0d' || c = '\x0b' || c = '\x0c'

/-- Python `str.strip()`: remove leading and trailing whitespace. -/
def pyStrip (s : List Char) : List Char :=
  ((s.dropWhile isPyWs).reverse.dropWhile isPyWs).reverse

/-- Python `str.lower()` restricted to ASCII (all program inputs the claims
touch are ASCII after regex stripping). -/
def pyLowerStr (s : List Char) : List Char :=
  s.map Char.toLower

/-- The compiled pattern `re.compile('[^a-zA-Z0-9 ]')` applied with
`regex.sub('', ·)`: keep only ASCII letters, digits and spaces. -/
def keepChar (c : Char) : Bool :=
  ('a' ≤ c && c ≤ 'z') || ('A' ≤ c && c ≤ 'Z') || ('0' ≤ c && c ≤ '9') || c = ' '

/-- `regex.sub('', s)` for the pattern `[^a-zA-Z0-9 ]`. -/
def regexSub (s : List Char) : List Char :=
  s.filter keepChar

/-- Python `s.replace(' ', '')`. -/
def removeSpaces (s : List Char) : List Char :=
  s.filter (fun c => c ≠ ' ')

/-- Whether `pat` is an initial segment of `s` (Boolean, by direct
recursion). -/
def leadsWith : List Char → List Char → Bool
  | [], _ => true
  | _ :: _, [] => false
  | p :: ps, c :: cs => p = c && leadsWith ps cs

/-- Helper for `pyCount`: count non-overlapping occurrences of the non-empty
pattern `a :: sub` in a string, scanning left to right and skipping past each
occurrence found, exactly as CPython's `str.count` does. The extra `Nat` is
structural-recursion fuel; every scan step consumes at least one character,
so fuel `s.length` is always enough. -/
def countAux : Nat → Char → List Char → List Char → Nat
  | 0, _, _, _ => 0
  | _ + 1, _, _, [] => 0
  | fuel + 1, a, sub, c :: rest =>
    if leadsWith (a :: sub) (c :: rest) then
      1 + countAux fuel a sub (rest.drop sub.length)
    else
      countAux fuel a sub rest

/-- Python `s.count(sub)`: non-overlapping occurrences; the empty pattern
counts `len(s) + 1` times, as in CPython. -/
def pyCount (sub s : List Char) : Nat :=
  match sub with
  | [] => s.length + 1
  | a :: sub => countAux s.length a sub s

/-- Fuelled worker for `pySplit`; every step consumes at least one
character, so fuel `s.length` is always enough. -/
def pySplitAux : Nat → List Char → List (List Char)
  | 0, _ => []
  | _ + 1, [] => []
  | fuel + 1, c :: rest =>
    if isPyWs c then pySplitAux fuel rest
    else (c :: rest.takeWhile (fun x => ¬ isPyWs x)) ::
      pySplitAux fuel (rest.dropWhile (fun x => ¬ isPyWs x))

/-- Python `s.split()` (no separator argument): split on runs of whitespace,
with no empty words. -/
def pySplit (s : List Char) : List (List Char) :=
  pySplitAux s.length s

/-- Python `s.index(pat)` for a substring search, as an `Option`
(`none` models the `ValueError` CPython raises when `pat` does not occur). -/
def subIndex : List Char → List Char → Option Nat
  | pat, [] => if pat = [] then some 0 else none
  | pat, c :: rest =>
    if leadsWith pat (c :: rest) then some 0
    else (subIndex pat rest).map (· + 1)

/-- Python's `pat in s` membership test for strings. -/
def subContains (pat s : List Char) : Bool :=
  (subIndex pat s).isSome

/-! ## Python numeric primitives -/

/-- Python 3 `round(x)`: round half to even (banker's rounding), idealized
over exact rationals. -/
def pyRound (q : ℚ) : ℤ :=
  let f : ℤ := ⌊q⌋
  let r : ℚ := q - f
  if r < 1/2 then f
  else if 1/2 < r then f + 1
  else if f % 2 = 0 then f else f + 1

/-- Python `round(x, 2)` idealized over exact rationals. -/
def pyRound2 (q : ℚ) : ℚ :=
  (pyRound (q * 100) : ℚ) / 100

/-! ## TimeCorrectionEngine (`src/utils/srt_utils.py`) -/

/-- `timedelta_to_milliseconds` from `srt_utils.py`. A `datetime.timedelta`
is represented by its exact total microsecond count `us`; CPython's
`delta.days * 86400000 + delta.seconds * 1000 + delta.microseconds / 1000`
equals `us / 1000` exactly on normalized timedeltas. -/
def timedelta_to_milliseconds (us : ℤ) : ℚ :=
  (us : ℚ) / 1000

/-- `calc_correction` from `srt_utils.py`; `none` models the
`ZeroDivisionError` that Python float division raises when
`from_end - from_start == 0`. -/
def calc_correction (to_start to_end from_start from_end : ℚ) :
    Option (ℚ × ℚ) :=
  if from_end - from_start = 0 then none
  else
    let angular := (to_end - to_start) / (from_end - from_start)
    let linear := to_end - angular * from_end
    some (angular, linear)

/-- `correct_time` from `srt_utils.py`. -/
def correct_time (current_msecs angular linear : ℚ) : ℤ :=
  pyRound (current_msecs * angular + linear)

/-- `correct_timedelta` from `srt_utils.py`: convert to milliseconds, apply
the correction, and build `timedelta(milliseconds=good_msecs)` (an integer
millisecond count, hence `1000 *` in microseconds). -/
def correct_timedelta (us : ℤ) (angular linear : ℚ) : ℤ :=
  1000 * correct_time (timedelta_to_milliseconds us) angular linear

/-- A parsed subtitle cue (`srt.Subtitle`): index, start/end timedeltas in
microseconds, and the text content. `endUs` stands for the `end` field
(`end` is a Lean keyword). -/
structure Subtitle where
  index : Nat
  startUs : ℤ
  endUs : ℤ
  content : List Char
deriving DecidableEq, Repr

/-- `linear_correct_subs` from `srt_utils.py` (the Python generator is
modelled by the list of the cues it yields). -/
def linear_correct_subs (subtitles : List Subtitle) (angular linear : ℚ) :
    List Subtitle :=
  subtitles.map fun s =>
    { s with
      startUs := correct_timedelta s.startUs angular linear
      endUs := correct_timedelta s.endUs angular linear }

/-! ## SubtitleCorpusIndex (`src/utils/audio_utils.py`, lines 152-156)

`subLowerAlpha = regex.sub('', sub.lower()).replace(' ', '')` is computed on
the whole raw subtitle-file text `sub`. -/

/-- The normalized corpus string the code builds from the raw subtitle file
text (`audio_utils.py` line 153). -/
def corpusFromFile (sub : List Char) : List Char :=
  removeSpaces (regexSub (pyLowerStr sub))

/-- Modelled from the spec: §3 "NormalizedCorpus — concatenation of all cue
texts, lowercased, stripped to alphanumerics and spaces, then spaces
removed". This second definition follows the spec's words (cue texts only)
and is compared against `corpusFromFile`, the computation the code performs
on the whole raw file. -/
def corpusFromCues (cues : List Subtitle) : List Char :=
  removeSpaces (regexSub (pyLowerStr (cues.foldr (fun c acc => c.content ++ acc) [])))

/-! ## MatchFinder (`find_subtitle_match`, `src/utils/audio_utils.py`)

`difflib.SequenceMatcher(None, text, subText).find_longest_match(...)` is an
external library call; the code uses only `match.a` and `match.size`, so it
is modelled by an oracle `flm : text → subText → (a, size)` and every
theorem quantifies over all of its behaviours. -/

/-- The cue-scanning loop of `find_subtitle_match` (the `for line in subList`
loop). The `try/except (ValueError, ZeroDivisionError, AttributeError)`
around the body, whose only reachable raiser is `str.index` on an absent
substring, is modelled by the `Option` results of `subIndex`: a `none`
continues with the next line. -/
def find_match_scan (text subLowerAlpha : List Char) (use_substring_match : Bool)
    (min_words : Nat) (flm : List Char → List Char → Nat × Nat) :
    List Subtitle → Option Subtitle × ℚ × ℚ
  | [] => (none, 0, 0)
  | line :: rest =>
    let subText := regexSub (pyLowerStr line.content)
    if subText = [] then
      find_match_scan text subLowerAlpha use_substring_match min_words flm rest
    else if use_substring_match = false then
      match subIndex text subText with
      | some i => (some line, (i : ℚ) / (subText.length : ℚ), 0)
      | none => find_match_scan text subLowerAlpha use_substring_match min_words flm rest
    else
      let m := flm text subText
      let matchStr := (text.drop m.1).take m.2
      if pyCount (removeSpaces matchStr) subLowerAlpha > 1 then
        find_match_scan text subLowerAlpha use_substring_match min_words flm rest
      else if min_words ≤ (pySplit matchStr).length then
        match subIndex matchStr subText, subIndex matchStr text with
        | some i, some j =>
          (some line, (i : ℚ) / (subText.length : ℚ), (j : ℚ) / (text.length : ℚ))
        | _, _ => find_match_scan text subLowerAlpha use_substring_match min_words flm rest
      else
        find_match_scan text subLowerAlpha use_substring_match min_words flm rest

/-- `find_subtitle_match` from `src/utils/audio_utils.py` (lines 57-104).
The `regex` parameter is the fixed compiled pattern `[^a-zA-Z0-9 ]`,
embedded as `regexSub`. -/
def find_subtitle_match (text : List Char) (subList : List Subtitle)
    (subLowerAlpha : List Char) (use_substring_match : Bool) (min_words : Nat)
    (flm : List Char → List Char → Nat × Nat) : Option Subtitle × ℚ × ℚ :=
  if text = [] ∨ pyStrip text = [] then (none, 0, 0)
  else
    let matchCount := pyCount (removeSpaces text) subLowerAlpha
    if matchCount > 1 then (none, 0, 0)
    else if use_substring_match = false ∧ matchCount = 0 then (none, 0, 0)
    else if (pySplit text).length < min_words then (none, 0, 0)
    else find_match_scan text subLowerAlpha use_substring_match min_words flm subList

/-! ## AutoSyncSearch (`auto_sub_sync`, `src/utils/audio_utils.py`)

External capabilities per probe attempt (`process_audio_clip` and
`get_speech_recognition_result`) are an oracle from the window start time to
a `ProbeOut`. -/

/-- Outcome of one probe attempt: `noAudio` models
`process_audio_clip(...) is None`; `result conf otext` models the
`(confidence, text)` pair from `get_speech_recognition_result`, where
`otext = none` is a `None` transcript. -/
inductive ProbeOut where
  | noAudio : ProbeOut
  | result (confidence : ℚ) (text : Option (List Char)) : ProbeOut
deriving DecidableEq, Repr

/-- The mutable locals of the `while` loop in `auto_sub_sync`. -/
structure SyncState where
  time : ℚ
  confidence : ℚ
  lineFound : Bool
  lineMatch : Option Subtitle
  indFrac : ℚ
  indFrac2 : ℚ
  attempts : Nat
deriving DecidableEq, Repr

/-- The read-only data of one `auto_sub_sync` run: video duration, GUI
values, parsed subtitles, the normalized corpus, and the two external
oracles. -/
structure SyncEnv where
  duration : ℚ
  time_clip : ℚ
  min_words : Nat
  confidence_threshold : ℚ
  use_substring_match : Bool
  subList : List Subtitle
  subLowerAlpha : List Char
  probe : ℚ → ProbeOut
  flm : List Char → List Char → Nat × Nat

/-- The `while (confidence * 100 < confidence_threshold or not lineFound)
and attempts < max_attempts` loop of `auto_sub_sync`, fuelled by
`max_attempts - attempts` (the fuel hits 0 exactly when
`attempts < max_attempts` fails). Each arm mirrors one `continue`/`break`
path of the Python body; note that `confidence` is assigned by the tuple
unpacking even on the empty-transcript `continue` paths, exactly as in the
source. -/
def sync_loop (env : SyncEnv) : Nat → SyncState → SyncState
  | 0, st => st
  | fuel + 1, st =>
    if st.confidence * 100 < env.confidence_threshold ∨ st.lineFound = false then
      let st1 := { st with lineFound := false, attempts := st.attempts + 1 }
      if env.duration < st1.time + env.time_clip then st1
      else
        match env.probe st1.time with
        | .noAudio => sync_loop env fuel { st1 with time := st1.time + env.time_clip }
        | .result conf otext =>
          match otext with
          | none => sync_loop env fuel
              { st1 with confidence := conf, time := st1.time + env.time_clip }
          | some raw =>
            if pyStrip raw = [] then
              sync_loop env fuel
                { st1 with confidence := conf, time := st1.time + env.time_clip }
            else
              let text := regexSub (pyLowerStr raw)
              let st2 := { st1 with confidence := conf }
              if pyStrip text = [] then
                sync_loop env fuel { st2 with time := st2.time + env.time_clip }
              else
                let r := find_subtitle_match text env.subList env.subLowerAlpha
                  env.use_substring_match env.min_words env.flm
                let st3 := { st2 with
                  lineMatch := r.1
                  indFrac := r.2.1
                  indFrac2 := r.2.2
                  lineFound := r.1.isSome }
                if env.confidence_threshold ≤ st3.confidence * 100 ∧ st3.lineFound = true
                then st3
                else sync_loop env fuel { st3 with time := st3.time + env.time_clip }
    else st

/-- `max_attempts = 50  # Prevent infinite loops` (`audio_utils.py` line 159). -/
def max_attempts : Nat := 50

/-- The locals as initialized before the loop; the probe window start is
`round(clip.audio.duration * start_frac, ndigits=2)`. -/
def init_state (duration start_frac : ℚ) : SyncState :=
  { time := pyRound2 (duration * start_frac), confidence := 0, lineFound := false,
    lineMatch := none, indFrac := 0, indFrac2 := 0, attempts := 0 }

/-- CPython `timedelta * float`: the exact product of the total microseconds
with the factor, rounded half-to-even to whole microseconds. -/
def tdMul (us : ℤ) (f : ℚ) : ℤ :=
  pyRound ((us : ℚ) * f)

/-- The subtitle-side timestamp emitted on success (`audio_utils.py` lines
219-223), in microseconds:
`lineMatch.start + (lineMatch.end - lineMatch.start) * indFrac
 - (lineMatch.end - lineMatch.start) * indFrac2`. -/
def emit_subTimeUs (st : SyncState) : ℤ :=
  match st.lineMatch with
  | none => 0
  | some line =>
    line.startUs + tdMul (line.endUs - line.startUs) st.indFrac
      - tdMul (line.endUs - line.startUs) st.indFrac2

/-- The final state of the `while` loop of one `auto_sub_sync` run. -/
def auto_sub_sync_state (env : SyncEnv) (start_frac : ℚ) : SyncState :=
  sync_loop env max_attempts (init_state env.duration start_frac)

/-- `auto_sub_sync` from `src/utils/audio_utils.py` (lines 106-228).
`decoded` is the result of reading the subtitle file (`none` models the
`UnicodeDecodeError` path, which returns `None` after a GUI update);
`env.subList` is the external `srt.parse` result for that text, and
`env.subLowerAlpha` must be `corpusFromFile` of it (see `mkEnv`). On
success the function returns the pair of SRT-formatted timestamps; the
formatting calls are external, so the emission is modelled by the values
formatted: `time - time_clip` seconds on the video side and
`emit_subTimeUs` microseconds on the subtitle side. -/
def auto_sub_sync (env : SyncEnv) (start_frac : ℚ) (decoded : Option (List Char)) :
    Option (ℚ × ℤ) :=
  match decoded with
  | none => none
  | some _ =>
    let st := auto_sub_sync_state env start_frac
    if st.lineMatch = none ∨ st.lineFound = false then none
    else some (st.time - env.time_clip, emit_subTimeUs st)

/-- Packaging of one run's inputs: build the environment from the decoded
subtitle text `sub` exactly as `auto_sub_sync` does (`subLowerAlpha`
computed by `corpusFromFile sub`). -/
def mkEnv (duration time_clip : ℚ) (min_words : Nat) (confidence_threshold : ℤ)
    (use_substring_match : Bool) (subList : List Subtitle) (sub : List Char)
    (probe : ℚ → ProbeOut) (flm : List Char → List Char → Nat × Nat) : SyncEnv :=
  { duration := duration, time_clip := time_clip, min_words := min_words,
    confidence_threshold := (confidence_threshold : ℚ),
    use_substring_match := use_substring_match, subList := subList,
    subLowerAlpha := corpusFromFile sub, probe := probe, flm := flm }

/-! ## Error dispatch (`perform_sync` in `src/utils/srt_utils.py`,
`validate_files` in `src/utils/file_utils.py`) -/

/-- An exception escaping the external I/O phase of `perform_sync`
(`set_basic_args` / `compose_suggest_on_fail` / `args.output.write`):
either a `UnicodeDecodeError`, or any other exception with its `str(e)`. -/
inductive WriteExc where
  | unicodeDecode : WriteExc
  | other (msg : List Char) : WriteExc
deriving DecidableEq, Repr

/-- `str(ZeroDivisionError)` raised by Python float division by zero. -/
def zeroDivisionMsg : List Char := "float division by zero".data

/-- `perform_sync` from `src/utils/srt_utils.py` (lines 153-184). The
correction coefficients are computed first; a `ZeroDivisionError` from
`calc_correction` falls through to the handler
`except Exception as e: return False, f"Try a different encoding\n{str(e)}"`.
The subsequent external I/O phase is an oracle `io`; its
`UnicodeDecodeError` is answered by the dedicated handler, any other
exception again by the generic one. -/
def perform_sync (to_start to_end from_start from_end : ℚ)
    (io : Except WriteExc (List Char)) : Bool × List Char :=
  match calc_correction to_start to_end from_start from_end with
  | none => (false, "Try a different encoding\n".data ++ zeroDivisionMsg)
  | some _ =>
    match io with
    | .ok name => (true, "Success! Synced subtitles saved as: ".data ++ name)
    | .error .unicodeDecode => (false, "Try a different encoding".data)
    | .error (.other msg) => (false, "Try a different encoding\n".data ++ msg)

/-- `validate_files` from `src/utils/file_utils.py`. Python's `not filename`
is true for `None` and for the empty string. -/
def validate_files (filename : Option (List Char)) (filenamev : Option (List Char))
    (require_video : Bool) : Bool × List Char :=
  if filename = none ∨ filename = some [] then
    (false, "Error: Subtitle file not selected.".data)
  else if require_video = true ∧ (filenamev = none ∨ filenamev = some []) then
    (false, "Error: Video file not selected.".data)
  else (true, [])

/-! ## Concrete scenarios

A one-cue subtitle file whose only text is `a b c`, probed with various
transcription behaviours. -/

/-- The single cue of the scenario file: index 1, 0s → 1s, text `a b c`. -/
def lineABC : Subtitle := ⟨1, 0, 1000000, "a b c".data⟩

/-- A 1000 s video whose probe always transcribes `a b c` with confidence 1;
GUI values: window 1 s, one-word minimum, threshold 70, exact matching. -/
def envAcc : SyncEnv :=
  mkEnv 1000 1 1 70 false [lineABC] ("a b c".data)
    (fun _ => .result 1 (some ("a b c".data))) (fun _ _ => (0, 0))

/-- Same scenario, but the probe always reports confidence 0. -/
def envLow : SyncEnv :=
  mkEnv 1000 1 1 70 false [lineABC] ("a b c".data)
    (fun _ => .result 0 (some ("a b c".data))) (fun _ _ => (0, 0))

/-- A 40 s video whose probe transcribes `a b c` with confidence 1 for the
window starting at t = 10 s and reports nothing elsewhere; window 2.5 s. -/
def envC2 : SyncEnv :=
  mkEnv 40 (5/2) 1 70 false [lineABC] ("a b c".data)
    (fun t => if t = 10 then .result 1 (some ("a b c".data)) else .result 0 none)
    (fun _ _ => (0, 0))

/-! ## Helper lemmas -/

theorem pyRound_intCast (n : ℤ) : pyRound (n : ℚ) = n := by
  unfold pyRound
  norm_num

theorem leadsWith_self_append (p q : List Char) : leadsWith p (p ++ q) = true := by
  induction p with
  | nil => simp [leadsWith]
  | cons c cs ih => simp [leadsWith, ih]

theorem corpusFromFile_append (s t : List Char) :
    corpusFromFile (s ++ t) = corpusFromFile s ++ corpusFromFile t := by
  simp [corpusFromFile, removeSpaces, regexSub, pyLowerStr]

/-- `correct_timedelta` with the identity coefficients fixes every
whole-millisecond timedelta. -/
theorem correct_timedelta_identity (us : ℤ) (h : (1000 : ℤ) ∣ us) :
    correct_timedelta us 1 0 = us := by
  obtain ⟨k, rfl⟩ := h
  unfold correct_timedelta correct_time timedelta_to_milliseconds
  have h1 : ((1000 * k : ℤ) : ℚ) / 1000 * 1 + 0 = (k : ℚ) := by
    push_cast
    ring
  rw [h1, pyRound_intCast]

/-- The `attempts` counter grows by at most the fuel: the loop body runs at
most `fuel` more times, and each run issues at most one probe. -/
theorem sync_loop_attempts_le (env : SyncEnv) :
    ∀ (fuel : Nat) (st : SyncState),
      (sync_loop env fuel st).attempts ≤ st.attempts + fuel := by
  intro fuel
  induction fuel with
  | zero => intro st; simp [sync_loop]
  | succ n ih =>
    intro st
    rw [sync_loop]
    split
    · dsimp only
      repeat' split
      all_goals first
        | (dsimp only; omega)
        | (exact Nat.le_trans (ih _) (by dsimp only; omega))
    · omega

/-- If the loop exits with `lineFound = true`, then either the final
confidence meets the threshold (the in-loop `break` / the loop condition),
or the fuel was exhausted: the match came on the very last attempt. -/
theorem sync_loop_lineFound_inv (env : SyncEnv) :
    ∀ (fuel : Nat) (st : SyncState),
      (sync_loop env fuel st).lineFound = true →
      env.confidence_threshold ≤ (sync_loop env fuel st).confidence * 100 ∨
        (sync_loop env fuel st).attempts = st.attempts + fuel := by
  intro fuel
  induction fuel with
  | zero => intro st _; right; simp [sync_loop]
  | succ n ih =>
    intro st
    rw [sync_loop]
    by_cases hentry : st.confidence * 100 < env.confidence_threshold ∨ st.lineFound = false
    · rw [if_pos hentry]
      dsimp only
      by_cases hdur : env.duration < st.time + env.time_clip
      · rw [if_pos hdur]
        intro h
        simp at h
      · rw [if_neg hdur]
        rcases hp : env.probe st.time with _ | ⟨conf, otext⟩
        · intro h
          rcases ih _ h with h1 | h1
          · exact Or.inl h1
          · right; dsimp only at h1 ⊢; omega
        · rcases otext with _ | raw
          · intro h
            rcases ih _ h with h1 | h1
            · exact Or.inl h1
            · right; dsimp only at h1 ⊢; omega
          · dsimp only
            by_cases hraw : pyStrip raw = []
            · rw [if_pos hraw]
              intro h
              rcases ih _ h with h1 | h1
              · exact Or.inl h1
              · right; dsimp only at h1 ⊢; omega
            · rw [if_neg hraw]
              by_cases htext : pyStrip (regexSub (pyLowerStr raw)) = []
              · rw [if_pos htext]
                intro h
                rcases ih _ h with h1 | h1
                · exact Or.inl h1
                · right; dsimp only at h1 ⊢; omega
              · rw [if_neg htext]
                by_cases hacc : env.confidence_threshold ≤ conf * 100 ∧
                    (find_subtitle_match (regexSub (pyLowerStr raw)) env.subList
                      env.subLowerAlpha env.use_substring_match env.min_words
                      env.flm).1.isSome = true
                · rw [if_pos hacc]
                  intro _
                  exact Or.inl hacc.1
                · rw [if_neg hacc]
                  intro h
                  rcases ih _ h with h1 | h1
                  · exact Or.inl h1
                  · right; dsimp only at h1 ⊢; omega
    · rw [if_neg hentry]
      intro h
      push_neg at hentry
      exact Or.inl hentry.1

/-- One loop iteration that passes the confidence gate and finds a match:
the loop exits by the `break`, keeping the window start `st.time`
unchanged. -/
theorem sync_loop_accept_step (env : SyncEnv) (fuel : Nat) (st : SyncState)
    (conf : ℚ) (raw : List Char) (line : Subtitle) (f1 f2 : ℚ)
    (hentry : st.confidence * 100 < env.confidence_threshold ∨ st.lineFound = false)
    (hdur : ¬ env.duration < st.time + env.time_clip)
    (hp : env.probe st.time = .result conf (some raw))
    (hraw : pyStrip raw ≠ [])
    (htext : pyStrip (regexSub (pyLowerStr raw)) ≠ [])
    (hfind : find_subtitle_match (regexSub (pyLowerStr raw)) env.subList env.subLowerAlpha
        env.use_substring_match env.min_words env.flm = (some line, f1, f2))
    (hconf : env.confidence_threshold ≤ conf * 100) :
    sync_loop env (fuel + 1) st =
      { time := st.time, confidence := conf, lineFound := true,
        lineMatch := some line, indFrac := f1, indFrac2 := f2,
        attempts := st.attempts + 1 } := by
  rw [sync_loop, if_pos hentry]
  dsimp only
  rw [if_neg hdur, hp]
  dsimp only
  rw [if_neg hraw, if_neg htext, hfind]
  dsimp only
  rw [if_pos ⟨hconf, rfl⟩]
  simp

/-- One loop iteration that finds a match below the confidence gate: the
loop advances the window and continues with all match fields set. -/
theorem sync_loop_continue_step (env : SyncEnv) (fuel : Nat) (st : SyncState)
    (conf : ℚ) (raw : List Char) (line : Subtitle) (f1 f2 : ℚ)
    (hentry : st.confidence * 100 < env.confidence_threshold ∨ st.lineFound = false)
    (hdur : ¬ env.duration < st.time + env.time_clip)
    (hp : env.probe st.time = .result conf (some raw))
    (hraw : pyStrip raw ≠ [])
    (htext : pyStrip (regexSub (pyLowerStr raw)) ≠ [])
    (hfind : find_subtitle_match (regexSub (pyLowerStr raw)) env.subList env.subLowerAlpha
        env.use_substring_match env.min_words env.flm = (some line, f1, f2))
    (hconf : ¬ env.confidence_threshold ≤ conf * 100) :
    sync_loop env (fuel + 1) st =
      sync_loop env fuel
        { time := st.time + env.time_clip, confidence := conf, lineFound := true,
          lineMatch := some line, indFrac := f1, indFrac2 := f2,
          attempts := st.attempts + 1 } := by
  rw [sync_loop, if_pos hentry]
  dsimp only
  rw [if_neg hdur, hp]
  dsimp only
  rw [if_neg hraw, if_neg htext, hfind]
  dsimp only
  rw [if_neg (by simp [hconf])]
  simp

/-- A full run against a constant low-confidence probe that always matches:
the loop burns all its fuel and exits holding the last match, even though
the confidence gate was never passed. -/
theorem sync_loop_const_run (env : SyncEnv)
    (conf : ℚ) (raw : List Char) (line : Subtitle) (f1 f2 : ℚ)
    (hprobe : ∀ t, env.probe t = .result conf (some raw))
    (hraw : pyStrip raw ≠ [])
    (htext : pyStrip (regexSub (pyLowerStr raw)) ≠ [])
    (hfind : find_subtitle_match (regexSub (pyLowerStr raw)) env.subList env.subLowerAlpha
        env.use_substring_match env.min_words env.flm = (some line, f1, f2))
    (hconf : conf * 100 < env.confidence_threshold)
    (hclip : 0 ≤ env.time_clip) :
    ∀ (fuel : Nat) (st : SyncState),
      0 < fuel →
      (st.confidence * 100 < env.confidence_threshold ∨ st.lineFound = false) →
      st.time + fuel * env.time_clip ≤ env.duration →
      sync_loop env fuel st =
        { time := st.time + fuel * env.time_clip, confidence := conf, lineFound := true,
          lineMatch := some line, indFrac := f1, indFrac2 := f2,
          attempts := st.attempts + fuel } := by
  intro fuel
  induction fuel with
  | zero => intro st h0; omega
  | succ n ih =>
    intro st _ hentry hdur
    have hone : (1 : ℚ) ≤ ((n : ℚ) + 1) := by
      have : (0 : ℚ) ≤ (n : ℚ) := Nat.cast_nonneg n
      linarith
    have hdur1 : ¬ env.duration < st.time + env.time_clip := by
      push_neg
      have hmul : env.time_clip * 1 ≤ env.time_clip * ((n : ℚ) + 1) :=
        mul_le_mul_of_nonneg_left hone hclip
      have : st.time + ((n : ℚ) + 1) * env.time_clip ≤ env.duration := by
        push_cast at hdur
        linarith [hdur]
      nlinarith
    rw [sync_loop_continue_step env n st conf raw line f1 f2 hentry hdur1 (hprobe _)
      hraw htext hfind (not_le.mpr hconf)]
    rcases Nat.eq_zero_or_pos n with hn | hn
    · subst hn
      rw [sync_loop]
      congr 1 <;> first
        | rfl
        | (push_cast; ring)
    · rw [ih _ hn (Or.inl hconf) (by dsimp only; push_cast at hdur ⊢; linarith)]
      congr 1 <;> first
        | rfl
        | (dsimp only; push_cast; ring)

/-- The probe window of a run with `start_frac = 0` starts at time 0. -/
theorem init_time_frac_zero (d : ℚ) : (init_state d 0).time = 0 := by
  show pyRound2 (d * 0) = 0
  norm_num [pyRound2, pyRound]

/-- Evaluation of the match finder in the `a b c` scenario: the (already
normalized) transcript `a b c` matches the single cue exactly, at offset
fractions (0, 0). -/
theorem find_abc :
    find_subtitle_match (regexSub (pyLowerStr ("a b c".data))) [lineABC]
      (corpusFromFile ("a b c".data)) false 1 (fun _ _ => (0, 0))
      = (some lineABC, 0, 0) := by
  have htext : regexSub (pyLowerStr ("a b c".data)) = "a b c".data := by decide
  have hcorp : corpusFromFile ("a b c".data) = "abc".data := by decide
  rw [htext, hcorp]
  have h1 : ¬ ("a b c".data = [] ∨ pyStrip "a b c".data = []) := by decide
  have h2 : pyCount (removeSpaces ("a b c".data)) ("abc".data) = 1 := by decide
  have h3 : (pySplit ("a b c".data)).length = 3 := by decide
  have h4 : regexSub (pyLowerStr lineABC.content) = "a b c".data := by decide
  have h5 : subIndex ("a b c".data) ("a b c".data) = some 0 := by decide
  simp only [find_subtitle_match, find_match_scan, h1, h2, h3, h4, h5, if_false]
  simp

/-- In the always-confidence-0 scenario the loop burns all 50 attempts and
still ends holding the match. -/
theorem auto_low_state :
    auto_sub_sync_state envLow 0 =
      { time := 50, confidence := 0, lineFound := true, lineMatch := some lineABC,
        indFrac := 0, indFrac2 := 0, attempts := 50 } := by
  unfold auto_sub_sync_state
  rw [sync_loop_const_run envLow 0 ("a b c".data) lineABC 0 0 (fun _ => rfl)
    (by decide) (by decide) find_abc (by norm_num [envLow, mkEnv])
    (by norm_num [envLow, mkEnv]) max_attempts _ (by norm_num [max_attempts])
    (Or.inr rfl)
    (by rw [init_time_frac_zero]; norm_num [envLow, mkEnv, max_attempts])]
  rw [init_time_frac_zero]
  congr 1 <;> norm_num [envLow, mkEnv, max_attempts, init_state]

/-- ... and therefore returns an anchor pair even though no probe ever met
the confidence threshold. -/
theorem auto_low_run :
    auto_sub_sync envLow 0 (some ("a b c".data)) = some (49, 0) := by
  unfold auto_sub_sync
  rw [auto_low_state]
  norm_num [emit_subTimeUs, tdMul, pyRound, lineABC, envLow, mkEnv]
  simp

/-- Trace invariant for the break exit: started from any state that
satisfies the loop condition (as every state in a real run does), if the
loop ends with a found match AND the final confidence meets the threshold —
which is exactly the in-loop `break`, since the fuel-exhaustion exit with a
match implies the break test just failed — then the final `time` is
unchanged from the accepted iteration: the probe at `time` produced the
accepted transcript, and the match finder on that transcript produced the
final match and offset fractions. -/
theorem sync_loop_break_trace (env : SyncEnv) :
    ∀ (fuel : Nat) (st : SyncState),
      (st.confidence * 100 < env.confidence_threshold ∨ st.lineFound = false) →
      (sync_loop env fuel st).lineFound = true →
      env.confidence_threshold ≤ (sync_loop env fuel st).confidence * 100 →
      ∃ raw : List Char,
        env.probe (sync_loop env fuel st).time =
          .result (sync_loop env fuel st).confidence (some raw) ∧
        pyStrip raw ≠ [] ∧
        pyStrip (regexSub (pyLowerStr raw)) ≠ [] ∧
        find_subtitle_match (regexSub (pyLowerStr raw)) env.subList env.subLowerAlpha
          env.use_substring_match env.min_words env.flm =
          ((sync_loop env fuel st).lineMatch, (sync_loop env fuel st).indFrac,
            (sync_loop env fuel st).indFrac2) := by
  intro fuel
  induction fuel with
  | zero =>
    intro st hst h1 h2
    simp only [sync_loop] at h1 h2
    rcases hst with hst | hst
    · exact absurd (lt_of_le_of_lt h2 hst) (lt_irrefl _)
    · simp [hst] at h1
  | succ n ih =>
    intro st hst
    rw [sync_loop, if_pos hst]
    dsimp only
    by_cases hdur : env.duration < st.time + env.time_clip
    · rw [if_pos hdur]
      intro h1 _
      simp at h1
    · rw [if_neg hdur]
      rcases hp : env.probe st.time with _ | ⟨conf, otext⟩
      · exact ih _ (Or.inr rfl)
      · rcases otext with _ | raw
        · exact ih _ (Or.inr rfl)
        · dsimp only
          by_cases hraw : pyStrip raw = []
          · rw [if_pos hraw]
            exact ih _ (Or.inr rfl)
          · rw [if_neg hraw]
            by_cases htext : pyStrip (regexSub (pyLowerStr raw)) = []
            · rw [if_pos htext]
              exact ih _ (Or.inr rfl)
            · rw [if_neg htext]
              by_cases hacc : env.confidence_threshold ≤ conf * 100 ∧
                  (find_subtitle_match (regexSub (pyLowerStr raw)) env.subList
                    env.subLowerAlpha env.use_substring_match env.min_words
                    env.flm).1.isSome = true
              · rw [if_pos hacc]
                intro _ _
                exact ⟨raw, hp, hraw, htext, rfl⟩
              · rw [if_neg hacc]
                by_cases hsome : (find_subtitle_match (regexSub (pyLowerStr raw))
                    env.subList env.subLowerAlpha env.use_substring_match
                    env.min_words env.flm).1.isSome = true
                · refine ih _ (Or.inl ?_)
                  dsimp only
                  by_contra hge
                  exact hacc ⟨le_of_not_lt hge, hsome⟩
                · have hfalse : (find_subtitle_match (regexSub (pyLowerStr raw))
                      env.subList env.subLowerAlpha env.use_substring_match
                      env.min_words env.flm).1.isSome = false := by
                    simpa using hsome
                  exact ih _ (Or.inr (by dsimp only; exact hfalse))

/-- In the always-confidence-1 scenario the first attempt is accepted and
the function returns `(0 - 1, 0)`: window start 0, minus the 1 s window. -/
theorem auto_accept_run :
    auto_sub_sync envAcc 0 (some ("a b c".data)) = some (-1, 0) := by
  have ht0 : (init_state envAcc.duration 0).time = 0 := init_time_frac_zero _
  unfold auto_sub_sync auto_sub_sync_state
  have h50 : max_attempts = 49 + 1 := rfl
  rw [h50, sync_loop_accept_step envAcc 49 (init_state envAcc.duration 0) 1 ("a b c".data)
    lineABC 0 0 (Or.inr rfl) (by rw [ht0]; norm_num [envAcc, mkEnv]) rfl (by decide)
    (by decide) find_abc (by norm_num [envAcc, mkEnv])]
  rw [ht0]
  norm_num [emit_subTimeUs, tdMul, pyRound, lineABC, envAcc, mkEnv]
  simp

/-- Final loop state of the accepting scenario: accepted at the first
attempt with the window start (time 0) unchanged. -/
theorem auto_accept_state :
    auto_sub_sync_state envAcc 0 =
      { time := 0, confidence := 1, lineFound := true, lineMatch := some lineABC,
        indFrac := 0, indFrac2 := 0, attempts := 1 } := by
  unfold auto_sub_sync_state
  have h50 : max_attempts = 49 + 1 := rfl
  rw [h50, sync_loop_accept_step envAcc 49 (init_state envAcc.duration 0) 1 ("a b c".data)
    lineABC 0 0 (Or.inr rfl) (by rw [init_time_frac_zero]; norm_num [envAcc, mkEnv]) rfl
    (by decide) (by decide) find_abc (by norm_num [envAcc, mkEnv])]
  rw [init_time_frac_zero]
  norm_num [init_state]

/-! ## Claims -/

/-- **C3** (confirmed). For every candidate text whose space-stripped form
occurs more than once in the normalized corpus, `find_subtitle_match`
returns no match, regardless of matching mode, minimum word count, or the
behaviour of the longest-match oracle: the ambiguity guard is checked
before any per-cue matching. -/
theorem find_match_rejects_ambiguous (text : List Char) (subList : List Subtitle)
    (subLowerAlpha : List Char) (use_substring_match : Bool) (min_words : Nat)
    (flm : List Char → List Char → Nat × Nat)
    (h : 1 < pyCount (removeSpaces text) subLowerAlpha) :
    find_subtitle_match text subList subLowerAlpha use_substring_match min_words flm
      = (none, 0, 0) := by
  unfold find_subtitle_match
  by_cases h0 : text = [] ∨ pyStrip text = []
  · rw [if_pos h0]
  · rw [if_neg h0]
    dsimp only
    rw [if_pos h]

/-- Witness for C3: the candidate `ab` occurs twice in the corpus `abab`,
so it is rejected. -/
theorem find_match_rejects_ambiguous_witness :
    find_subtitle_match ("ab".data) [lineABC] ("abab".data) true 1 (fun _ _ => (0, 0))
      = (none, 0, 0) :=
  find_match_rejects_ambiguous ("ab".data) [lineABC] ("abab".data) true 1
    (fun _ _ => (0, 0)) (by decide)

/-- **C4** (corrected) counterexample. The normalized corpus the code
builds (`corpusFromFile`, applied to the whole raw file) differs from the
concatenation of cue texts only (`corpusFromCues`, as the spec describes)
on a one-cue file: `srt.parse` of this file yields the single cue with
content `hello`, but the file corpus also contains the digits of the index
and timing lines. -/
theorem corpus_counterexample :
    corpusFromFile ("1\n00:00:00,000 --> 00:00:01,000\nhello\n".data) ≠
      corpusFromCues [⟨1, 0, 1000000, "hello".data⟩] := by
  decide

/-- **C4** (amended). The corpus is built from the whole raw file text, so
an SRT block's index line and timing line contribute their digits: prefixing
a file with the block header `1 / 00:00:00,000 --> 00:00:01,000` prefixes
the corpus with `1000000000000001000`. -/
theorem corpus_includes_block_digits (content : List Char) :
    corpusFromFile ("1\n00:00:00,000 --> 00:00:01,000\n".data ++ content) =
      "1000000000000001000".data ++ corpusFromFile content := by
  rw [corpusFromFile_append]
  congr 1

/-- **C5** (confirmed). For every anchor pair with distinct source times,
applying the computed correction to the two source timestamps reproduces
the two target timestamps exactly, up to rounding each to the nearest
millisecond (exactly, when the targets are whole milliseconds). -/
theorem calc_correction_roundtrip (to_start to_end from_start from_end a l : ℚ)
    (h : from_start ≠ from_end)
    (hc : calc_correction to_start to_end from_start from_end = some (a, l)) :
    correct_time from_start a l = pyRound to_start ∧
      correct_time from_end a l = pyRound to_end := by
  have hne : from_end - from_start ≠ 0 := sub_ne_zero.mpr (Ne.symm h)
  unfold calc_correction at hc
  rw [if_neg hne] at hc
  simp only [Option.some.injEq, Prod.mk.injEq] at hc
  obtain ⟨ha, hl⟩ := hc
  constructor
  · unfold correct_time
    congr 1
    rw [← hl, ← ha]
    field_simp
    ring
  · unfold correct_time
    congr 1
    rw [← hl, ← ha]
    field_simp
    ring

/-- Witness for C5 at the spec's scenario anchors (1000→1000, 2000→3000):
the corrected source times are the integer targets. -/
theorem calc_correction_roundtrip_witness :
    correct_time 1000 2 (-1000) = pyRound 1000 ∧
      correct_time 2000 2 (-1000) = pyRound 3000 :=
  calc_correction_roundtrip 1000 3000 1000 2000 2 (-1000) (by norm_num)
    (by norm_num [calc_correction])

/-- **C7** (corrected) counterexample. The spec's scenario claims
`calc_correction(1000, 3000, 1000, 2000) = (2.0, -3000)`; the code returns
offset `-1000`, not `-3000`. -/
theorem calc_correction_scenario_counterexample :
    calc_correction 1000 3000 1000 2000 ≠ some (2, -3000) := by
  norm_num [calc_correction]

/-- **C7** (amended). `calc_correction(to_start=1000, to_end=3000,
from_start=1000, from_end=2000)` returns scale 2.0 and offset `-1000`, and
applying the correction to source timestamp 1500 yields
`round(1500·2 − 1000) = 2000` milliseconds. -/
theorem calc_correction_scenario :
    calc_correction 1000 3000 1000 2000 = some (2, -1000) ∧
      correct_time 1500 2 (-1000) = 2000 := by
  constructor
  · norm_num [calc_correction]
  · norm_num [correct_time, pyRound]

/-- **C8** (confirmed). `calc_correction` raises its division error exactly
when the two source timestamps coincide, and returns coefficients without
raising for every distinct pair. -/
theorem calc_correction_raises_iff (to_start to_end from_start from_end : ℚ) :
    calc_correction to_start to_end from_start from_end = none ↔
      from_start = from_end := by
  unfold calc_correction
  constructor
  · intro h
    by_cases hz : from_end - from_start = 0
    · exact (sub_eq_zero.mp hz).symm
    · rw [if_neg hz] at h
      simp at h
  · intro h
    rw [h, sub_self]
    simp

/-- **C9** (corrected) counterexample. Identity anchors (0→0, 1000→1000)
give the identity coefficients, yet a cue whose start is 500 µs (0.5 ms,
not a whole millisecond) is moved: `correct_timedelta` rounds it to 0 and
the end (1.5 ms) to 2 ms. -/
theorem identity_anchor_counterexample :
    calc_correction 0 1000 0 1000 = some (1, 0) ∧
      linear_correct_subs [⟨1, 500, 1500, []⟩] 1 0 = [⟨1, 0, 2000, []⟩] ∧
      [(⟨1, 0, 2000, []⟩ : Subtitle)] ≠ [(⟨1, 500, 1500, []⟩ : Subtitle)] := by
  refine ⟨by norm_num [calc_correction], ?_, by decide⟩
  have h1 : pyRound ((500 : ℚ) / 1000) = 0 := by
    have e : (500 : ℚ) / 1000 = 1/2 := by norm_num
    rw [e]
    unfold pyRound
    norm_num
  have h2 : pyRound ((1500 : ℚ) / 1000) = 2 := by
    have e : (1500 : ℚ) / 1000 = 3/2 := by norm_num
    rw [e]
    unfold pyRound
    norm_num
  unfold linear_correct_subs correct_timedelta correct_time timedelta_to_milliseconds
  simp [h1, h2]

/-- **C9** (amended). Identity anchors leave every cue unchanged whose start
and end are whole milliseconds (as all cues parsed from an SRT file are). -/
theorem identity_anchors_fix_cues (t1 t2 a l : ℚ) (h : t1 ≠ t2)
    (hc : calc_correction t1 t2 t1 t2 = some (a, l))
    (cues : List Subtitle)
    (hms : ∀ c ∈ cues, (1000 : ℤ) ∣ c.startUs ∧ (1000 : ℤ) ∣ c.endUs) :
    linear_correct_subs cues a l = cues := by
  have hne : t2 - t1 ≠ 0 := sub_ne_zero.mpr (Ne.symm h)
  unfold calc_correction at hc
  rw [if_neg hne] at hc
  simp only [Option.some.injEq, Prod.mk.injEq] at hc
  obtain ⟨ha, hl⟩ := hc
  have ha1 : a = 1 := by
    rw [← ha, div_self hne]
  have hl0 : l = 0 := by
    rw [← hl, div_self hne]
    ring
  subst ha1
  subst hl0
  unfold linear_correct_subs
  have hid : ∀ c ∈ cues,
      ({ c with
         startUs := correct_timedelta c.startUs 1 0
         endUs := correct_timedelta c.endUs 1 0 } : Subtitle) = c := by
    intro c hcu
    obtain ⟨h1, h2⟩ := hms c hcu
    have e1 := correct_timedelta_identity c.startUs h1
    have e2 := correct_timedelta_identity c.endUs h2
    cases c
    simp_all
  calc cues.map _ = cues.map id := List.map_congr_left hid
    _ = cues := List.map_id cues

/-- Witness for C9: identity anchors 0→0 and 1000→1000 fix a
whole-millisecond cue (5000 ms → 7000 ms). -/
theorem identity_anchors_fix_cues_witness :
    linear_correct_subs [⟨1, 5000000, 7000000, "hello world".data⟩] 1 0 =
      [⟨1, 5000000, 7000000, "hello world".data⟩] :=
  identity_anchors_fix_cues 0 1000 1 0 (by norm_num) (by norm_num [calc_correction])
    _ (by intro c hc; rw [List.mem_singleton] at hc; subst hc; constructor <;> norm_num)

/-- **C10** (corrected) counterexample. A sync failure caused by a
degenerate anchor pair (`from_start = from_end = 500`), not by an encoding
problem, is still reported with a message that begins with
`Try a different encoding`. -/
theorem perform_sync_divzero_counterexample :
    (perform_sync 1000 3000 500 500 (.ok ("out.srt".data))).1 = false ∧
      leadsWith ("Try a different encoding".data)
        (perform_sync 1000 3000 500 500 (.ok ("out.srt".data))).2 = true := by
  have hnone : calc_correction 1000 3000 500 500 = none := by
    norm_num [calc_correction]
  unfold perform_sync
  rw [hnone]
  exact ⟨rfl, by decide⟩

/-- **C10** (amended). `validate_files` does distinguish "file not
selected", but `perform_sync` reports every failure — including a
degenerate anchor pair's division error — with a message beginning with
the encoding hint `Try a different encoding` (the generic handler appends
the underlying error text after a newline). -/
theorem failure_message_taxonomy (to_start to_end from_start from_end : ℚ)
    (hdeg : from_start = from_end) (io : Except WriteExc (List Char)) :
    validate_files none none false = (false, "Error: Subtitle file not selected.".data) ∧
      (perform_sync to_start to_end from_start from_end io).1 = false ∧
      leadsWith ("Try a different encoding".data)
        (perform_sync to_start to_end from_start from_end io).2 = true := by
  have hnone : calc_correction to_start to_end from_start from_end = none := by
    unfold calc_correction
    rw [hdeg, sub_self]
    simp
  refine ⟨by decide, ?_, ?_⟩
  · unfold perform_sync
    rw [hnone]
  · unfold perform_sync
    rw [hnone]
    have hdecomp : "Try a different encoding\n".data =
        "Try a different encoding".data ++ ['\n'] := by decide
    show leadsWith ("Try a different encoding".data)
      ("Try a different encoding\n".data ++ zeroDivisionMsg) = true
    rw [hdecomp, List.append_assoc]
    exact leadsWith_self_append _ _

/-- Witness for C10 (amended), at the degenerate pair 3 → 3. -/
theorem failure_message_taxonomy_witness :
    validate_files none none false = (false, "Error: Subtitle file not selected.".data) ∧
      (perform_sync 1 2 3 3 (.ok [])).1 = false ∧
      leadsWith ("Try a different encoding".data) (perform_sync 1 2 3 3 (.ok [])).2 = true :=
  failure_message_taxonomy 1 2 3 3 rfl (.ok [])

/-- **C6** (confirmed). For every probe behaviour — including a probe that
always returns empty text or a failure result — the `auto_sub_sync` loop
runs at most `max_attempts = 50` iterations, hence issues at most 50 probe
attempts (the `attempts` counter increments once per iteration, before the
iteration's single probe call). -/
theorem auto_sync_attempts_bounded (env : SyncEnv) (start_frac : ℚ) :
    (auto_sub_sync_state env start_frac).attempts ≤ max_attempts := by
  have h := sync_loop_attempts_le env max_attempts (init_state env.duration start_frac)
  simpa [auto_sub_sync_state, init_state] using h

/-- **C1** (amended). If `auto_sub_sync` returns an anchor pair, the final
loop state holds a found match, and either its confidence times 100 meets
the threshold, or the match was produced by the very last (50th) attempt:
the loop's fuel ran out with `confidence · 100 < threshold`, and the
post-loop check `lineMatch is None or not lineFound` does not re-check
confidence. -/
theorem auto_sync_accept_or_exhaust (env : SyncEnv) (start_frac : ℚ)
    (decoded : Option (List Char)) (r : ℚ × ℤ)
    (h : auto_sub_sync env start_frac decoded = some r) :
    (auto_sub_sync_state env start_frac).lineFound = true ∧
      (env.confidence_threshold ≤ (auto_sub_sync_state env start_frac).confidence * 100 ∨
        (auto_sub_sync_state env start_frac).attempts = max_attempts) := by
  rcases decoded with _ | sub
  · simp [auto_sub_sync] at h
  · unfold auto_sub_sync at h
    by_cases hg : (auto_sub_sync_state env start_frac).lineMatch = none ∨
        (auto_sub_sync_state env start_frac).lineFound = false
    · rw [if_pos hg] at h
      exact absurd h (by simp)
    · push_neg at hg
      have hLF : (auto_sub_sync_state env start_frac).lineFound = true := by
        rcases Bool.eq_false_or_eq_true ((auto_sub_sync_state env start_frac).lineFound)
          with hb | hb
        · exact hb
        · exact absurd hb hg.2
      refine ⟨hLF, ?_⟩
      have hinv := sync_loop_lineFound_inv env max_attempts
        (init_state env.duration start_frac) hLF
      simpa [auto_sub_sync_state, init_state] using hinv

/-- Witness for C1 (amended): in the accepting scenario the returned anchor
comes with a found match whose confidence meets the threshold. -/
theorem auto_sync_accept_or_exhaust_witness :
    (auto_sub_sync_state envAcc 0).lineFound = true ∧
      (envAcc.confidence_threshold ≤ (auto_sub_sync_state envAcc 0).confidence * 100 ∨
        (auto_sub_sync_state envAcc 0).attempts = max_attempts) :=
  auto_sync_accept_or_exhaust envAcc 0 (some ("a b c".data)) (-1, 0) auto_accept_run

/-- **C1** (corrected) counterexample. With threshold 70 and a probe that
always reports confidence 0 on a text that matches unambiguously, the
search still returns an anchor pair (after all 50 attempts), even though
the accepted probe's confidence times 100 (0) is below the threshold: the
claimed "only if" direction fails. -/
theorem auto_sync_low_confidence_counterexample :
    auto_sub_sync envLow 0 (some ("a b c".data)) = some (49, 0) ∧
      (auto_sub_sync_state envLow 0).confidence * 100 < envLow.confidence_threshold := by
  constructor
  · exact auto_low_run
  · rw [auto_low_state]
    norm_num [envLow, mkEnv]

/-- **C2** (amended). On acceptance via the confidence break — i.e.
whenever `auto_sub_sync` returns an anchor pair AND the final confidence
meets the threshold, which is exactly the break exit (the fuel-exhaustion
exit with a match implies the break test just failed) — the probe that
produced the accepted transcription ran on the window starting at the
final `time` value `t`, after any number of earlier failed windows; the
matched cue and offset fractions come from the match finder on that
transcript; and the emitted pair is `videoTimeSec = t − windowDurationSec`
— one window duration BEFORE the accepted window's start, because the
break path never advanced `time` yet the emission subtracts `time_clip` —
and `subtitleTime = cue.start + (cue.end − cue.start)·offsetFractionInCue
− (cue.end − cue.start)·offsetFractionInText` (timedelta arithmetic,
microsecond rounding), as claimed for the subtitle side. -/
theorem auto_sync_accept_emission (env : SyncEnv) (start_frac : ℚ) (sub : List Char)
    (r : ℚ × ℤ)
    (h : auto_sub_sync env start_frac (some sub) = some r)
    (hbreak : env.confidence_threshold ≤
      (auto_sub_sync_state env start_frac).confidence * 100) :
    ∃ (raw : List Char) (line : Subtitle),
      env.probe (auto_sub_sync_state env start_frac).time =
        .result (auto_sub_sync_state env start_frac).confidence (some raw) ∧
      (auto_sub_sync_state env start_frac).lineMatch = some line ∧
      find_subtitle_match (regexSub (pyLowerStr raw)) env.subList env.subLowerAlpha
        env.use_substring_match env.min_words env.flm =
        (some line, (auto_sub_sync_state env start_frac).indFrac,
          (auto_sub_sync_state env start_frac).indFrac2) ∧
      r = ((auto_sub_sync_state env start_frac).time - env.time_clip,
        line.startUs + tdMul (line.endUs - line.startUs)
            ((auto_sub_sync_state env start_frac).indFrac)
          - tdMul (line.endUs - line.startUs)
            ((auto_sub_sync_state env start_frac).indFrac2)) := by
  unfold auto_sub_sync at h
  by_cases hg : (auto_sub_sync_state env start_frac).lineMatch = none ∨
      (auto_sub_sync_state env start_frac).lineFound = false
  · rw [if_pos hg] at h
    exact absurd h (by simp)
  · rw [if_neg hg] at h
    push_neg at hg
    have hLF : (auto_sub_sync_state env start_frac).lineFound = true := by
      rcases Bool.eq_false_or_eq_true ((auto_sub_sync_state env start_frac).lineFound)
        with hb | hb
      · exact hb
      · exact absurd hb hg.2
    obtain ⟨raw, hp, _, _, hfind⟩ := sync_loop_break_trace env max_attempts
      (init_state env.duration start_frac) (Or.inr rfl) hLF hbreak
    obtain ⟨line, hline⟩ := Option.ne_none_iff_exists'.mp hg.1
    refine ⟨raw, line, hp, hline, ?_, ?_⟩
    · rw [← hline]
      exact hfind
    · have hr : r = ((auto_sub_sync_state env start_frac).time - env.time_clip,
          emit_subTimeUs (auto_sub_sync_state env start_frac)) := by
        injection h with h2
        exact h2.symm
      have hemit : emit_subTimeUs (auto_sub_sync_state env start_frac) =
          line.startUs + tdMul (line.endUs - line.startUs)
              ((auto_sub_sync_state env start_frac).indFrac)
            - tdMul (line.endUs - line.startUs)
              ((auto_sub_sync_state env start_frac).indFrac2) := by
        unfold emit_subTimeUs
        rw [hline]
      rw [hr, hemit]

/-- Witness for C2 (amended): in the accepting scenario (return value
`(−1, 0)`, confidence 1 ≥ threshold 70), the accepted probe ran at the
final time 0 and the emitted video time is `0 − 1 = −1`. -/
theorem auto_sync_accept_emission_witness :
    ∃ (raw : List Char) (line : Subtitle),
      envAcc.probe (auto_sub_sync_state envAcc 0).time =
        .result (auto_sub_sync_state envAcc 0).confidence (some raw) ∧
      (auto_sub_sync_state envAcc 0).lineMatch = some line ∧
      find_subtitle_match (regexSub (pyLowerStr raw)) envAcc.subList envAcc.subLowerAlpha
        envAcc.use_substring_match envAcc.min_words envAcc.flm =
        (some line, (auto_sub_sync_state envAcc 0).indFrac,
          (auto_sub_sync_state envAcc 0).indFrac2) ∧
      ((-1 : ℚ), (0 : ℤ)) = ((auto_sub_sync_state envAcc 0).time - envAcc.time_clip,
        line.startUs + tdMul (line.endUs - line.startUs)
            ((auto_sub_sync_state envAcc 0).indFrac)
          - tdMul (line.endUs - line.startUs)
            ((auto_sub_sync_state envAcc 0).indFrac2)) :=
  auto_sync_accept_emission envAcc 0 ("a b c".data) (-1, 0) auto_accept_run
    (by rw [auto_accept_state]; norm_num [envAcc, mkEnv])

/-- **C2** (corrected) counterexample. In the 40 s scenario the only
matching probe window starts at t = 10 s, and the match is accepted there
(confidence 1, threshold 70), yet the emitted video timestamp is
`10 − 2.5 = 7.5` seconds, not `t = 10`. -/
theorem auto_sync_video_time_counterexample :
    auto_sub_sync envC2 (1/4) (some ("a b c".data)) = some (15/2, 0) ∧
      (auto_sub_sync_state envC2 (1/4)).time = 10 ∧ ((15 : ℚ)/2 ≠ 10) := by
  have ht0 : (init_state envC2.duration (1/4)).time = 10 := by
    show pyRound2 (envC2.duration * (1/4)) = 10
    norm_num [envC2, mkEnv, pyRound2, pyRound]
  have hstate : auto_sub_sync_state envC2 (1/4) =
      { time := (init_state envC2.duration (1/4)).time, confidence := 1,
        lineFound := true, lineMatch := some lineABC, indFrac := 0, indFrac2 := 0,
        attempts := (init_state envC2.duration (1/4)).attempts + 1 } := by
    unfold auto_sub_sync_state
    have h50 : max_attempts = 49 + 1 := rfl
    rw [h50, sync_loop_accept_step envC2 49 (init_state envC2.duration (1/4)) 1
      ("a b c".data) lineABC 0 0 (Or.inr rfl)
      (by rw [ht0]; norm_num [envC2, mkEnv])
      (by rw [ht0]; norm_num [envC2, mkEnv])
      (by decide) (by decide) find_abc (by norm_num [envC2, mkEnv])]
  refine ⟨?_, ?_, by norm_num⟩
  · unfold auto_sub_sync
    rw [hstate, ht0]
    norm_num [emit_subTimeUs, tdMul, pyRound, lineABC, envC2, mkEnv]
    simp
  · rw [hstate, ht0]

end AutoSrtSync
